import Mathlib

/-!
Verification of the OI Sentry divergence detector (oi_sentry.py): the
bounded history buffer, the percentage-change and rolling-statistics
computations, the alert classifier and the tick orchestration loop,
embedded shallowly with Python floats modelled as exact rationals, and
as reals where a square root appears.
-/

/-- One observation of both sources, as appended by the loop:
`{"ts": ts, "oi_binance": oi_binance, "oi_bybit": oi_bybit}`
(run_loop, line 143). -/
structure Tick where
  ts : String
  oi_binance : ℚ
  oi_bybit : ℚ
deriving DecidableEq

/-- Python list slicing `l[s:]` for an integer start index: a negative
start counts from the end (clamped to 0), a non-negative start is
clamped to the length. -/
def pySliceFrom {α : Type} (l : List α) (s : ℤ) : List α :=
  if s < 0 then l.drop ((l.length : ℤ) + s).toNat
  else l.drop (min l.length s.toNat)

/-- The trim `history[-keep_points:]` used by the loop (lines 118, 138,
144 and 213). -/
def trimKeep {α : Type} (l : List α) (keep : ℤ) : List α :=
  pySliceFrom l (-keep)

/-- `history.append({...})` followed by
`history[:] = history[-args.keep_points:]` (run_loop, lines 143-144). -/
def appendTrim (h : List Tick) (t : Tick) (keep : ℤ) : List Tick :=
  trimKeep (h ++ [t]) keep

/-- `pct_change` (lines 55-58). -/
def pct_change (new old : ℚ) : ℚ :=
  if old = 0 then 0 else (new - old) / old * 100

/-- `rolling_stats` (lines 93-98): mean and sample standard deviation of
the window, the variance divisor floored at 1 and the variance floored
at 1e-9 before the square root. -/
noncomputable def rolling_stats (values : List ℚ) : ℚ × ℝ :=
  if values = [] then (0, 1 / 10 ^ 9)
  else
    let m : ℚ := values.sum / values.length
    let var : ℚ := (values.map (fun v => (v - m) ^ 2)).sum / max 1 ((values.length : ℚ) - 1)
    (m, Real.sqrt (max (var : ℝ) (1 / 10 ^ 9)))

/-- `zscore` (lines 101-104). -/
noncomputable def zscore (x mean : ℚ) (std : ℝ) : ℝ :=
  if std ≤ 1 / 10 ^ 9 then 0 else ((x : ℝ) - (mean : ℝ)) / std

/-- Which side rose in a Seesaw alert (run_loop, line 182): `binanceUp`
is the "Binance up / Bybit down" label, `bybitUp` the symmetric one. -/
inductive SeesawSide where
  | binanceUp
  | bybitUp
deriving DecidableEq

/-- One alert event appended to `alerts` (run_loop, lines 177-192); each
category carries a fixed description string, so only the category and
the seesaw direction are modelled. -/
inductive Alert where
  | seesaw (side : SeesawSide)
  | syncPump
  | syncFlush
  | totalSwing
deriving DecidableEq

/-- The classifier thresholds and the retention length, as injected from
the command line (parse_args, lines 222-235). -/
structure Args where
  up_thresh_pct : ℚ
  down_thresh_pct : ℚ
  sync_thresh_pct : ℚ
  total_swing_thresh : ℚ
  keep_points : ℤ
deriving DecidableEq

/-- The per-tick rule evaluation of run_loop, lines 158-192: percentage
changes against the baseline, the total swing, then the four rules in
source order Seesaw, Sync Pump, Sync Flush, Total Swing. -/
def classify (a : Args) (last_binance last_bybit oi_binance oi_bybit : ℚ) : List Alert :=
  let d_binance_pct := pct_change oi_binance last_binance
  let d_bybit_pct := pct_change oi_bybit last_bybit
  let total_swing := |(oi_binance + oi_bybit) - (last_binance + last_bybit)|
  let seesaw_up := d_binance_pct ≥ a.up_thresh_pct ∧ d_bybit_pct ≤ -a.down_thresh_pct
  let seesaw_dn := d_bybit_pct ≥ a.up_thresh_pct ∧ d_binance_pct ≤ -a.down_thresh_pct
  (if seesaw_up ∨ seesaw_dn then
    [Alert.seesaw (if seesaw_up then SeesawSide.binanceUp else SeesawSide.bybitUp)]
  else []) ++
  (if d_binance_pct ≥ a.sync_thresh_pct ∧ d_bybit_pct ≥ a.sync_thresh_pct then
    [Alert.syncPump] else []) ++
  (if d_binance_pct ≤ -a.sync_thresh_pct ∧ d_bybit_pct ≤ -a.sync_thresh_pct then
    [Alert.syncFlush] else []) ++
  (if total_swing ≥ a.total_swing_thresh then [Alert.totalSwing] else [])

/-- The loop-carried state: the history buffer and the baseline pair
`last_binance`/`last_bybit` (None during warmup). -/
structure LoopState where
  history : List Tick
  last_binance : Option ℚ
  last_bybit : Option ℚ
deriving DecidableEq

/-- Start of run_loop (lines 112-125): the restored history is taken as
loaded, with no trimming, and the baseline is read from its last
element (None when the history is empty). -/
def initState (loaded : List Tick) : LoopState :=
  { history := loaded
    last_binance := loaded.getLast?.map Tick.oi_binance
    last_bybit := loaded.getLast?.map Tick.oi_bybit }

/-- One iteration of the polling loop (run_loop, lines 127-208), the two
fetch results passed in: if either fetch failed the cycle is skipped
entirely; otherwise the tick is appended and trimmed, and when a
baseline exists the classifier runs; the baseline becomes the current
pair. -/
def tickStep (a : Args) (s : LoopState) (fetch_binance fetch_bybit : Option ℚ)
    (ts : String) : LoopState × List Alert :=
  match fetch_binance, fetch_bybit with
  | some oi_binance, some oi_bybit =>
    let history := appendTrim s.history ⟨ts, oi_binance, oi_bybit⟩ a.keep_points
    match s.last_binance, s.last_bybit with
    | some lb, some ly =>
      (⟨history, some oi_binance, some oi_bybit⟩, classify a lb ly oi_binance oi_bybit)
    | _, _ => (⟨history, some oi_binance, some oi_bybit⟩, [])
  | _, _ => (s, [])

/-- The JSON documents written and read by save_state / load_state
(lines 61-75), as an abstract syntax tree; the byte-level rendering is
the json library's. -/
inductive Json where
  | str (s : String)
  | num (q : ℚ)
  | arr (items : List Json)
  | obj (fields : List (String × Json))

/-- Dictionary lookup on a JSON object, as `d[key]` / `d.get(key)`. -/
def jGet (fields : List (String × Json)) (k : String) : Option Json :=
  (fields.find? (fun p => p.1 == k)).map Prod.snd

/-- The JSON form of one history entry (run_loop, line 143). -/
def encodeTick (t : Tick) : Json :=
  Json.obj [("ts", Json.str t.ts), ("oi_binance", Json.num t.oi_binance),
    ("oi_bybit", Json.num t.oi_bybit)]

/-- `save_state` (lines 71-75) applied to the state dict
`{"history": ...}` the loop maintains. -/
def save_state (history : List Tick) : Json :=
  Json.obj [("history", Json.arr (history.map encodeTick))]

/-- Reading one history entry back: `h["ts"]`, `h["oi_binance"]`,
`h["oi_bybit"]` as used by run_loop, lines 124-125 and 161-162. -/
def decodeTick (j : Json) : Option Tick :=
  match j with
  | Json.obj fs =>
    match jGet fs "ts", jGet fs "oi_binance", jGet fs "oi_bybit" with
    | some (Json.str ts), some (Json.num b), some (Json.num y) => some ⟨ts, b, y⟩
    | _, _, _ => none
  | _ => none

/-- `load_state` (lines 61-68) followed by `state.get("history", [])`
(line 113): a malformed document yields the empty history. -/
def load_state (j : Json) : List Tick :=
  match j with
  | Json.obj fs =>
    match jGet fs "history" with
    | some (Json.arr items) => items.filterMap decodeTick
    | _ => []
  | _ => []

/-- Position of each alert category in the source's evaluation order. -/
def alertIndex : Alert → ℕ
  | Alert.seesaw _ => 0
  | Alert.syncPump => 1
  | Alert.syncFlush => 2
  | Alert.totalSwing => 3

lemma mem_classify_syncPump (a : Args) (lb ly b y : ℚ) :
    Alert.syncPump ∈ classify a lb ly b y ↔
      pct_change b lb ≥ a.sync_thresh_pct ∧ pct_change y ly ≥ a.sync_thresh_pct := by
  simp only [classify, List.mem_append]
  split_ifs <;> simp_all

lemma mem_classify_syncFlush (a : Args) (lb ly b y : ℚ) :
    Alert.syncFlush ∈ classify a lb ly b y ↔
      pct_change b lb ≤ -a.sync_thresh_pct ∧ pct_change y ly ≤ -a.sync_thresh_pct := by
  simp only [classify, List.mem_append]
  split_ifs <;> simp_all

lemma mem_classify_totalSwing (a : Args) (lb ly b y : ℚ) :
    Alert.totalSwing ∈ classify a lb ly b y ↔
      |(b + y) - (lb + ly)| ≥ a.total_swing_thresh := by
  simp only [classify, List.mem_append]
  split_ifs <;> simp_all

/-- Claim C1: from baseline (1,000,000, 1,000,000) to (1,006,000, 994,000)
with thresholds up = down = sync = 0.5 the percentage changes are +0.6
and -0.6, exactly the Seesaw alert fires with the Binance-up direction,
and neither Sync Pump nor Sync Flush fires. -/
theorem seesaw_scenario :
    pct_change 1006000 1000000 = 0.6 ∧
    pct_change 994000 1000000 = -0.6 ∧
    classify ⟨1/2, 1/2, 1/2, 2000000, 360⟩ 1000000 1000000 1006000 994000 =
      [Alert.seesaw SeesawSide.binanceUp] ∧
    Alert.syncPump ∉ classify ⟨1/2, 1/2, 1/2, 2000000, 360⟩ 1000000 1000000 1006000 994000 ∧
    Alert.syncFlush ∉ classify ⟨1/2, 1/2, 1/2, 2000000, 360⟩ 1000000 1000000 1006000 994000 := by
  refine ⟨by norm_num [pct_change], by norm_num [pct_change], ?_, ?_, ?_⟩ <;>
  · simp only [classify]
    norm_num [pct_change]
    try decide

/-- Claim C4: pct_change of equal nonzero values is 0, pct_change against
a zero baseline is 0, and against a nonzero baseline it is
(new - old) / old * 100. -/
theorem pct_change_spec :
    (∀ x : ℚ, x ≠ 0 → pct_change x x = 0) ∧
    (∀ new : ℚ, pct_change new 0 = 0) ∧
    (∀ new old : ℚ, old ≠ 0 → pct_change new old = (new - old) / old * 100) := by
  refine ⟨fun x hx => ?_, fun new => ?_, fun new old h => ?_⟩ <;>
    simp [pct_change, *]

/-- Witness for pct_change_spec at x = 5, new = 7, (new, old) = (3, 2). -/
theorem pct_change_spec_witness :
    (5 : ℚ) ≠ 0 ∧ pct_change 5 5 = 0 ∧ pct_change 7 0 = 0 ∧
    (2 : ℚ) ≠ 0 ∧ pct_change 3 2 = (3 - 2) / 2 * 100 :=
  ⟨by norm_num, pct_change_spec.1 5 (by norm_num), pct_change_spec.2.1 7,
    by norm_num, pct_change_spec.2.2 3 2 (by norm_num)⟩

/-- Claim C9: keep_points = 0 disables eviction: the slice
history[-0:] keeps the whole list, so append retains everything and
grows the buffer without bound, and the trims performed on interrupt
and on reaching the iteration bound are the identity. -/
theorem keep_points_zero_unbounded :
    (∀ (h : List Tick) (t : Tick),
      appendTrim h t 0 = h ++ [t] ∧ (appendTrim h t 0).length = h.length + 1) ∧
    (∀ h : List Tick, trimKeep h 0 = h) := by
  have htrim : ∀ h : List Tick, trimKeep h 0 = h := by
    intro h
    simp [trimKeep, pySliceFrom]
  refine ⟨fun h t => ?_, htrim⟩
  rw [appendTrim, htrim]
  simp

/-- Claim C2 fails as stated: with keep_points = 0 an append leaves the
buffer longer than keep_points, and the restore of a persisted history
of three records under keep_points = 2 leaves length 3 > 2, since the
restore at process start performs no trimming. -/
theorem history_bound_counterexample :
    (appendTrim [] ⟨"t", 1, 2⟩ 0).length = 1 ∧
    ¬((appendTrim [] ⟨"t", 1, 2⟩ 0).length ≤ 0) ∧
    (initState [⟨"a", 1, 1⟩, ⟨"b", 2, 2⟩, ⟨"c", 3, 3⟩]).history.length = 3 ∧
    ¬((initState [⟨"a", 1, 1⟩, ⟨"b", 2, 2⟩, ⟨"c", 3, 3⟩]).history.length ≤ 2) := by
  refine ⟨rfl, by simp [appendTrim, trimKeep, pySliceFrom], rfl, by simp [initState]⟩

/-- Claim C2 amended: for keep_points ≥ 1, an append never leaves the
buffer longer than keep_points and the retained contents are exactly
the most recent records of the appended list in original order; the
restored history satisfies the bound only when the persisted contents
already do, because restore performs no trimming. -/
theorem history_append_bound (h : List Tick) (t : Tick) (k : ℤ) (hk : 1 ≤ k) :
    (appendTrim h t k).length ≤ k.toNat ∧
    appendTrim h t k = (h ++ [t]).drop ((h ++ [t]).length - k.toNat) ∧
    ∀ loaded : List Tick, loaded.length ≤ k.toNat →
      (initState loaded).history.length ≤ k.toNat := by
  have hdrop : appendTrim h t k = (h ++ [t]).drop ((h ++ [t]).length - k.toNat) := by
    rw [appendTrim, trimKeep, pySliceFrom, if_pos (by omega)]
    congr 1
    omega
  refine ⟨?_, hdrop, fun loaded hl => ?_⟩
  · rw [hdrop, List.length_drop]
    omega
  · simpa [initState] using hl

/-- Witness for history_append_bound: appending a third tick with
keep_points = 2 keeps the length within 2. -/
theorem history_append_bound_witness :
    (1 : ℤ) ≤ 2 ∧
    (appendTrim [⟨"a", 1, 1⟩, ⟨"b", 2, 2⟩] ⟨"c", 3, 3⟩ 2).length ≤ (2 : ℤ).toNat :=
  ⟨by norm_num,
    (history_append_bound [⟨"a", 1, 1⟩, ⟨"b", 2, 2⟩] ⟨"c", 3, 3⟩ 2 (by norm_num)).1⟩

/-- Claim C5: a successful tick seen while either baseline component is
absent (warmup) produces no alert of any category; the tick is appended
and trimmed, and the baseline is established to the current pair. -/
theorem warmup_no_alert (a : Args) (hist : List Tick) (lb ly : Option ℚ)
    (b y : ℚ) (ts : String) (hwarm : lb = none ∨ ly = none) :
    tickStep a ⟨hist, lb, ly⟩ (some b) (some y) ts =
      (⟨appendTrim hist ⟨ts, b, y⟩ a.keep_points, some b, some y⟩, []) := by
  rcases hwarm with h | h
  · subst h; cases ly <;> rfl
  · subst h; cases lb <;> rfl

/-- Witness for warmup_no_alert on the empty history with default
thresholds. -/
theorem warmup_no_alert_witness :
    ((none : Option ℚ) = none ∨ (none : Option ℚ) = none) ∧
    tickStep ⟨1/2, 1/2, 1/2, 2000000, 360⟩ ⟨[], none, none⟩ (some 5) (some 7) "t" =
      (⟨appendTrim [] ⟨"t", 5, 7⟩ 360, some 5, some 7⟩, []) :=
  ⟨Or.inl rfl,
    warmup_no_alert ⟨1/2, 1/2, 1/2, 2000000, 360⟩ [] none none 5 7 "t" (Or.inl rfl)⟩

/-- Claim C6: a cycle in which either fetch fails leaves the loop state
(history and baseline) unchanged and produces no alerts. -/
theorem fetch_failure_skips (a : Args) (s : LoopState)
    (fetch_binance fetch_bybit : Option ℚ) (ts : String)
    (hfail : fetch_binance = none ∨ fetch_bybit = none) :
    tickStep a s fetch_binance fetch_bybit ts = (s, []) := by
  rcases hfail with h | h
  · subst h; cases fetch_bybit <;> rfl
  · subst h; cases fetch_binance <;> rfl

/-- Witness for fetch_failure_skips: a failed Binance fetch leaves a
one-record state untouched. -/
theorem fetch_failure_skips_witness :
    ((none : Option ℚ) = none ∨ (some 3 : Option ℚ) = none) ∧
    tickStep ⟨1/2, 1/2, 1/2, 2000000, 360⟩ ⟨[⟨"a", 1, 1⟩], some 1, some 1⟩
        none (some 3) "t" =
      (⟨[⟨"a", 1, 1⟩], some 1, some 1⟩, []) :=
  ⟨Or.inl rfl,
    fetch_failure_skips ⟨1/2, 1/2, 1/2, 2000000, 360⟩ ⟨[⟨"a", 1, 1⟩], some 1, some 1⟩
      none (some 3) "t" (Or.inl rfl)⟩

lemma rolling_stats_const100 :
    rolling_stats [100, 100, 100] = (100, Real.sqrt (1 / 10 ^ 9)) := by
  rw [rolling_stats, if_neg (by simp)]
  norm_num

lemma sqrt_eps_gt : (1 / 10 ^ 9 : ℝ) < Real.sqrt (1 / 10 ^ 9) :=
  (Real.lt_sqrt (by norm_num)).mpr (by norm_num)

/-- Claim C3 fails as stated: for the window [100, 100, 100] the computed
standard deviation is not 1e-9 — the code floors the variance at 1e-9
and then takes the square root, giving sqrt(1e-9). -/
theorem std_floor_counterexample :
    (rolling_stats [100, 100, 100]).2 ≠ (1 / 10 ^ 9 : ℝ) := by
  rw [rolling_stats_const100]
  exact sqrt_eps_gt.ne'

/-- Claim C3 amended: for the window [100, 100, 100] the variance is
floored at the epsilon 1e-9 before the square root, so the standard
deviation is sqrt(1e-9), strictly above 1e-9; the z-score of a new
value 100 equal to the window mean is 0. -/
theorem std_floor_amended :
    (rolling_stats [100, 100, 100]).2 = Real.sqrt (1 / 10 ^ 9) ∧
    (1 / 10 ^ 9 : ℝ) < (rolling_stats [100, 100, 100]).2 ∧
    zscore 100 (rolling_stats [100, 100, 100]).1 (rolling_stats [100, 100, 100]).2 = 0 := by
  refine ⟨by rw [rolling_stats_const100], ?_, ?_⟩
  · rw [rolling_stats_const100]
    exact sqrt_eps_gt
  · rw [rolling_stats_const100, zscore]
    split <;> simp

lemma decode_encode (t : Tick) : decodeTick (encodeTick t) = some t := rfl

/-- Claim C7: loading the saved form of any history, including the empty
one, yields the original history: record order and all fields
(timestamp and both numeric values) are preserved exactly. -/
theorem save_load_roundtrip (h : List Tick) : load_state (save_state h) = h := by
  show (h.map encodeTick).filterMap decodeTick = h
  rw [List.filterMap_map]
  have hcomp : decodeTick ∘ encodeTick = some := funext fun t => decode_encode t
  rw [hcomp, List.filterMap_some]

/-- Claim C8: on every classified tick the fired alerts appear in the
fixed evaluation order Seesaw, Sync Pump, Sync Flush, Total Swing;
Total Swing fires exactly when the absolute combined change meets its
threshold, independent of the percentage rules; and the rules are
independent, so several alerts can fire on the same tick. -/
theorem alert_order_and_total_swing :
    (∀ (a : Args) (lb ly b y : ℚ),
      ((classify a lb ly b y).map alertIndex).Sorted (· ≤ ·)) ∧
    (∀ (a : Args) (lb ly b y : ℚ),
      (Alert.totalSwing ∈ classify a lb ly b y ↔
        |(b + y) - (lb + ly)| ≥ a.total_swing_thresh)) ∧
    classify ⟨1/2, 1/2, 1/2, 10, 360⟩ 1000 1000 1010 1010 =
      [Alert.syncPump, Alert.totalSwing] := by
  refine ⟨fun a lb ly b y => ?_, fun a lb ly b y => mem_classify_totalSwing a lb ly b y, ?_⟩
  · simp only [classify]
    split_ifs <;>
      simp_all [alertIndex, List.Sorted, List.pairwise_cons]
  · simp only [classify]
    norm_num [pct_change]

/-- Claim C10: with a strictly positive sync threshold, Sync Pump and
Sync Flush never both fire on the same tick; with threshold 0 and both
percentage changes 0, both fire. -/
theorem sync_pump_flush_exclusive (a : Args) (lb ly b y : ℚ) :
    (0 < a.sync_thresh_pct →
      ¬(Alert.syncPump ∈ classify a lb ly b y ∧ Alert.syncFlush ∈ classify a lb ly b y)) ∧
    (a.sync_thresh_pct = 0 → pct_change b lb = 0 → pct_change y ly = 0 →
      Alert.syncPump ∈ classify a lb ly b y ∧ Alert.syncFlush ∈ classify a lb ly b y) := by
  constructor
  · rintro hs ⟨hp, hf⟩
    rw [mem_classify_syncPump] at hp
    rw [mem_classify_syncFlush] at hf
    linarith [hp.1, hf.1]
  · intro h0 hb hy
    rw [mem_classify_syncPump, mem_classify_syncFlush, hb, hy, h0]
    norm_num

/-- Witness for sync_pump_flush_exclusive: an unchanged tick under the
default threshold 1/2 fires neither rule together, and under threshold
0 fires both. -/
theorem sync_pump_flush_exclusive_witness :
    (0 : ℚ) < (Args.mk (1/2) (1/2) (1/2) 2000000 360).sync_thresh_pct ∧
    ¬(Alert.syncPump ∈ classify ⟨1/2, 1/2, 1/2, 2000000, 360⟩ 1 1 1 1 ∧
      Alert.syncFlush ∈ classify ⟨1/2, 1/2, 1/2, 2000000, 360⟩ 1 1 1 1) ∧
    (Args.mk (1/2) (1/2) 0 2000000 360).sync_thresh_pct = 0 ∧
    pct_change 1 1 = 0 ∧
    (Alert.syncPump ∈ classify ⟨1/2, 1/2, 0, 2000000, 360⟩ 1 1 1 1 ∧
      Alert.syncFlush ∈ classify ⟨1/2, 1/2, 0, 2000000, 360⟩ 1 1 1 1) :=
  ⟨by norm_num,
    (sync_pump_flush_exclusive ⟨1/2, 1/2, 1/2, 2000000, 360⟩ 1 1 1 1).1 (by norm_num),
    rfl,
    by norm_num [pct_change],
    (sync_pump_flush_exclusive ⟨1/2, 1/2, 0, 2000000, 360⟩ 1 1 1 1).2 rfl
      (by norm_num [pct_change]) (by norm_num [pct_change])⟩
